import Mathlib

/-!
Verification of the switchyard packet-header codec against its specification.

The development shallowly embeds `src/switchyard/lib/packet/ethernet.py`:
the `Ethernet` header with its field setters, `to_bytes`/`from_bytes`
codec, `size`, structural equality, and the `EtherTypeClasses` dispatch
table consulted by `next_header_class`.  Raw bytes are `Fin 256` values
and the 16-bit ethertype field is packed big-endian with explicit
`% 256` arithmetic, mirroring `struct.pack('!6s6sH', ...)`.

Python's in-place `from_bytes` mutates `self` through the public field
setters in order (src, dst, ethertype) and returns the unconsumed
remainder; the embedding returns the final header state together with
an `Except`, so that the header state observable after a raised
exception is captured faithfully.

The `EtherType` enumeration lives in `switchyard/lib/packet/ethcommon.py`,
which is not part of the sources here; it is modelled below from the
spec's description of a closed constant set, with the two members named
by `ethernet.py` (IP, ARP) plus one further standard member (IPv6) that
has no entry in the dispatch table, as the spec's "unrecognized
discriminant" case requires such a value to exist.  The ICMP header is
likewise modelled from the spec (§4.4, §6), since only its tests are
among the sources.
-/

set_option autoImplicit false

/-- A raw byte, as found in a Python `bytes` object. -/
abbrev Byte := Fin 256

/-- Truncate a machine integer to one byte, mirroring how a value is
placed into a single position of a packed byte string. -/
def natToByte (n : Nat) : Byte := ⟨n % 256, Nat.mod_lt _ (by decide)⟩

/-- Modelled from the spec: the `EtherType` enumeration of
`switchyard/lib/packet/ethcommon.py` is not among the sources; the spec
describes it as a closed set of known link-layer type constants.
`ethernet.py` names the members `IP` and `ARP`; `IPv6` is a further
standard member carrying no entry in `EtherTypeClasses`, as required by
the spec's unrecognized-discriminant case. -/
inductive EtherType where
  | IP
  | ARP
  | IPv6
deriving DecidableEq, Repr, Fintype

/-- The numeric value of each `EtherType` member (standard registry
values: IP 0x0800, ARP 0x0806, IPv6 0x86dd). -/
def etherTypeValue : EtherType → Nat
  | .IP => 0x0800
  | .ARP => 0x0806
  | .IPv6 => 0x86dd

/-- Python enum coercion `EtherType(value)`: the member with the given
value, or `none` (a raised `ValueError`) when no member has it. -/
def etherTypeOfNat (v : Nat) : Option EtherType :=
  if v = 0x0800 then some .IP
  else if v = 0x0806 then some .ARP
  else if v = 0x86dd then some .IPv6
  else none

/-- Printable member name, used in the warning text of
`next_header_class`. -/
def etherTypeName : EtherType → String
  | .IP => "EtherType.IP"
  | .ARP => "EtherType.ARP"
  | .IPv6 => "EtherType.IPv6"

/-- A 48-bit hardware address (`EthAddr` of `switchyard/lib/address`,
not among the sources): six raw bytes.  `EthAddr(value)` applied to a
six-byte string always succeeds and stores those bytes. -/
structure EthAddr where
  a0 : Byte
  a1 : Byte
  a2 : Byte
  a3 : Byte
  a4 : Byte
  a5 : Byte
deriving DecidableEq, Repr

/-- `EthAddr.packed`: the six raw bytes of the address. -/
def EthAddr.packed (a : EthAddr) : List Byte :=
  [a.a0, a.a1, a.a2, a.a3, a.a4, a.a5]

/-- `SpecialEthAddr.ETHER_ANY` = 00:00:00:00:00:00, the default for both
address fields of `Ethernet.__init__`. -/
def etherAny : EthAddr := ⟨0, 0, 0, 0, 0, 0⟩

/-- The error taxonomy of the spec (§7), naming the distinct raise sites
of `ethernet.py`: the insufficient-bytes `Exception` of `from_bytes`
(carrying `len(raw)`), the `ValueError` of the enum coercion in the
`ethertype` setter, and the no-mapping `Exception` of
`next_header_class` (carrying the offending ethertype). -/
inductive PacketError where
  | formatError : Nat → PacketError
  | domainError : PacketError
  | unrecognizedProtocolError : EtherType → PacketError
deriving DecidableEq, Repr

/-- The next-header classes that `EtherTypeClasses` can map to; the
sources register only `Arp`. -/
inductive HeaderClass where
  | Arp
deriving DecidableEq, Repr

/-- The dispatch dictionary `EtherTypeClasses = {EtherType.IP: None,
EtherType.ARP: Arp}`: `none` models absence from the dictionary,
`some none` the explicit `None` entry (recognized terminal), and
`some (some c)` a registered next-header class. -/
def EtherTypeClasses : EtherType → Option (Option HeaderClass)
  | .IP => some none
  | .ARP => some (some .Arp)
  | .IPv6 => none

/-- The `Ethernet` header: fields `__src`, `__dst`, `__ethertype`. -/
structure Ethernet where
  src : EthAddr
  dst : EthAddr
  ethertype : EtherType
deriving DecidableEq, Repr

/-- `Ethernet()` with all defaults: src = dst = ETHER_ANY, ethertype =
EtherType.IP. -/
def Ethernet.init : Ethernet := ⟨etherAny, etherAny, .IP⟩

/-- `struct.calcsize('!6s6sH')` = 6 + 6 + 2. -/
def Ethernet.MINSIZE : Nat := 6 + 6 + 2

/-- `Ethernet.size`: the packed size of the header, independent of the
field values. -/
def Ethernet.size (_ : Ethernet) : Nat := Ethernet.MINSIZE

/-- The `src` setter: `self.__src = EthAddr(value)`; for a six-byte
value the coercion stores the bytes. -/
def Ethernet.set_src (h : Ethernet) (a : EthAddr) : Ethernet :=
  { h with src := a }

/-- The `dst` setter: `self.__dst = EthAddr(value)`. -/
def Ethernet.set_dst (h : Ethernet) (a : EthAddr) : Ethernet :=
  { h with dst := a }

/-- The `ethertype` setter: `self.__ethertype = EtherType(value)`.  The
coercion on the right-hand side is evaluated first, so on a
`ValueError` the field keeps its previous value; the pair returns the
header state after the call together with the raised error, if any. -/
def Ethernet.set_ethertype (h : Ethernet) (v : Nat) :
    Ethernet × Option PacketError :=
  match etherTypeOfNat v with
  | some et => ({ h with ethertype := et }, none)
  | none => (h, some .domainError)

/-- `Ethernet.to_bytes`: `struct.pack('!6s6sH', src.packed, dst.packed,
ethertype.value)` — six src bytes, six dst bytes, then the 16-bit
ethertype value big-endian. -/
def Ethernet.to_bytes (h : Ethernet) : List Byte :=
  h.src.packed ++ h.dst.packed ++
    [natToByte (etherTypeValue h.ethertype / 256),
     natToByte (etherTypeValue h.ethertype % 256)]

/-- `Ethernet.from_bytes`: raise when fewer than `MINSIZE` bytes are
given; otherwise unpack the first 14 bytes and assign, in order,
`self.src`, `self.dst`, `self.ethertype` through the public setters,
returning the unconsumed remainder.  The returned header is the state
of `self` after the call, also when an error is raised part-way. -/
def Ethernet.from_bytes (h : Ethernet) (raw : List Byte) :
    Ethernet × Except PacketError (List Byte) :=
  if raw.length < Ethernet.MINSIZE then
    (h, .error (.formatError raw.length))
  else
    match raw with
    | s0 :: s1 :: s2 :: s3 :: s4 :: s5 ::
      d0 :: d1 :: d2 :: d3 :: d4 :: d5 :: hi :: lo :: rest =>
      let h1 := h.set_src ⟨s0, s1, s2, s3, s4, s5⟩
      let h2 := h1.set_dst ⟨d0, d1, d2, d3, d4, d5⟩
      match h2.set_ethertype (hi.val * 256 + lo.val) with
      | (h3, none) => (h3, .ok rest)
      | (h3, some e) => (h3, .error e)
    | _ => (h, .error (.formatError raw.length))

/-- `Ethernet.next_header_class`: raise when the ethertype is absent
from `EtherTypeClasses`; otherwise return the dictionary entry,
printing a console warning when the entry is `None`.  The second
component collects the console output. -/
def Ethernet.next_header_class (h : Ethernet) :
    Except PacketError (Option HeaderClass × List String) :=
  match EtherTypeClasses h.ethertype with
  | none => .error (.unrecognizedProtocolError h.ethertype)
  | some none =>
      .ok (none, ["Warning: no class exists to parse next protocol type: "
                    ++ etherTypeName h.ethertype])
  | some (some cls) => .ok (some cls, [])

/-- `Ethernet.__eq__`: structural equality of the three semantic
fields. -/
def Ethernet.eq (a b : Ethernet) : Prop :=
  a.src = b.src ∧ a.dst = b.dst ∧ a.ethertype = b.ethertype

instance (a b : Ethernet) : Decidable (Ethernet.eq a b) := by
  unfold Ethernet.eq; infer_instance

/-- Unfolding of `to_bytes` on a fully destructured header into a plain
fourteen-element byte list. -/
theorem Ethernet.to_bytes_explicit
    (s0 s1 s2 s3 s4 s5 d0 d1 d2 d3 d4 d5 : Byte) (et : EtherType) :
    Ethernet.to_bytes ⟨⟨s0, s1, s2, s3, s4, s5⟩, ⟨d0, d1, d2, d3, d4, d5⟩, et⟩ =
      s0 :: s1 :: s2 :: s3 :: s4 :: s5 :: d0 :: d1 :: d2 :: d3 :: d4 :: d5 ::
        natToByte (etherTypeValue et / 256) ::
        natToByte (etherTypeValue et % 256) :: [] := by
  simp only [Ethernet.to_bytes, EthAddr.packed, List.cons_append,
    List.nil_append]

/-- Coercing the numeric value of an `EtherType` member recovers the
member. -/
theorem etherTypeOfNat_value (et : EtherType) :
    etherTypeOfNat (etherTypeValue et) = some et := by
  cases et <;> rfl

/-- Coercion fails exactly on values carried by no member. -/
theorem etherTypeOfNat_eq_none (v : Nat)
    (hv : ∀ et : EtherType, etherTypeValue et ≠ v) :
    etherTypeOfNat v = none := by
  unfold etherTypeOfNat
  split_ifs with h1 h2 h3
  · exact absurd h1.symm (hv .IP)
  · exact absurd h2.symm (hv .ARP)
  · exact absurd h3.symm (hv .IPv6)
  · rfl

/-- On an input shorter than the declared minimum size, `from_bytes`
raises the insufficient-bytes error and leaves the header untouched. -/
theorem Ethernet.from_bytes_short (h : Ethernet) (raw : List Byte)
    (hlen : raw.length < Ethernet.MINSIZE) :
    Ethernet.from_bytes h raw = (h, Except.error (.formatError raw.length)) := by
  unfold Ethernet.from_bytes
  rw [if_pos hlen]

/-- On a full-length input whose last two unpacked bytes form no
`EtherType` value, `from_bytes` raises the domain error of the
ethertype setter after the src and dst setters have already run. -/
theorem Ethernet.from_bytes_domain_mutation (h : Ethernet)
    (s0 s1 s2 s3 s4 s5 d0 d1 d2 d3 d4 d5 hi lo : Byte) (rest : List Byte)
    (hbad : etherTypeOfNat (hi.val * 256 + lo.val) = none) :
    Ethernet.from_bytes h (s0 :: s1 :: s2 :: s3 :: s4 :: s5 ::
        d0 :: d1 :: d2 :: d3 :: d4 :: d5 :: hi :: lo :: rest) =
      ({ h with src := ⟨s0, s1, s2, s3, s4, s5⟩,
                dst := ⟨d0, d1, d2, d3, d4, d5⟩ },
        Except.error PacketError.domainError) := by
  have hlen : ¬ ((s0 :: s1 :: s2 :: s3 :: s4 :: s5 ::
      d0 :: d1 :: d2 :: d3 :: d4 :: d5 :: hi :: lo :: rest).length <
        Ethernet.MINSIZE) := by
    simp [Ethernet.MINSIZE]
  unfold Ethernet.from_bytes
  rw [if_neg hlen]
  simp only [Ethernet.set_src, Ethernet.set_dst, Ethernet.set_ethertype, hbad]

/-- C1: decoding the encoded bytes of any Ethernet header, from any
prior header state, reconstructs a header structurally equal (in the
sense of `__eq__`) to the encoded one and returns an empty
remainder. -/
theorem C1_roundtrip (h0 H : Ethernet) :
    (Ethernet.from_bytes h0 H.to_bytes).2 = Except.ok [] ∧
    Ethernet.eq (Ethernet.from_bytes h0 H.to_bytes).1 H := by
  obtain ⟨⟨s0, s1, s2, s3, s4, s5⟩, ⟨d0, d1, d2, d3, d4, d5⟩, et⟩ := H
  rw [Ethernet.to_bytes_explicit]
  cases et <;> exact ⟨rfl, rfl, rfl, rfl⟩

/-- C2: in every field state, `size()` equals the length of the byte
sequence produced by `to_bytes()`. -/
theorem C2_size_consistency (h : Ethernet) :
    h.size = h.to_bytes.length := by
  obtain ⟨⟨s0, s1, s2, s3, s4, s5⟩, ⟨d0, d1, d2, d3, d4, d5⟩, et⟩ := h
  rw [Ethernet.to_bytes_explicit]
  rfl

/-- C3: decoding the encoded bytes of any header with the last byte
removed fails with the insufficient-bytes format error (`size(H) > 0`
holds throughout), and in general any input shorter than the declared
minimum of 14 bytes fails the same way. -/
theorem C3_truncation (h0 H : Ethernet) (raw : List Byte)
    (hraw : raw.length < Ethernet.MINSIZE) :
    0 < H.size ∧
    (Ethernet.from_bytes h0 H.to_bytes.dropLast).2 =
      Except.error (.formatError 13) ∧
    (Ethernet.from_bytes h0 raw).2 = Except.error (.formatError raw.length) := by
  obtain ⟨⟨s0, s1, s2, s3, s4, s5⟩, ⟨d0, d1, d2, d3, d4, d5⟩, et⟩ := H
  refine ⟨by unfold Ethernet.size Ethernet.MINSIZE; omega, ?_, ?_⟩
  · rw [Ethernet.to_bytes_explicit]
    rfl
  · rw [Ethernet.from_bytes_short h0 raw hraw]

/-- Witness for C3 at the default header and the empty input. -/
theorem C3_truncation_witness :
    0 < Ethernet.init.size ∧
    (Ethernet.from_bytes Ethernet.init Ethernet.init.to_bytes.dropLast).2 =
      Except.error (.formatError 13) ∧
    (Ethernet.from_bytes Ethernet.init []).2 =
      Except.error (.formatError 0) :=
  C3_truncation Ethernet.init Ethernet.init [] (by decide)

/-- C4 counterexample: on a full-length input whose last two bytes form
no `EtherType` value, `from_bytes` raises, yet the header's `src` field
no longer holds its value from before the call — the decode failure
leaves the header partially mutated. -/
theorem C4_counterexample :
    (Ethernet.from_bytes Ethernet.init
        [1, 1, 1, 1, 1, 1, 2, 2, 2, 2, 2, 2, 0, 0]).2 =
      Except.error PacketError.domainError ∧
    (Ethernet.from_bytes Ethernet.init
        [1, 1, 1, 1, 1, 1, 2, 2, 2, 2, 2, 2, 0, 0]).1.src ≠
      Ethernet.init.src := by
  exact ⟨rfl, by decide⟩

/-- C4 amended: a `from_bytes` failure for insufficient input length
leaves every field unchanged; but a failure of the ethertype domain
check on a full-length input leaves the header with `src` and `dst`
already overwritten by the input's address bytes (only `ethertype`
keeps its prior value), since the setters run in order src, dst,
ethertype. -/
theorem C4_mutation_on_failure (h : Ethernet) (raw : List Byte) :
    (raw.length < Ethernet.MINSIZE →
      Ethernet.from_bytes h raw = (h, Except.error (.formatError raw.length))) ∧
    (∀ s0 s1 s2 s3 s4 s5 d0 d1 d2 d3 d4 d5 hi lo : Byte, ∀ rest : List Byte,
      raw = s0 :: s1 :: s2 :: s3 :: s4 :: s5 ::
        d0 :: d1 :: d2 :: d3 :: d4 :: d5 :: hi :: lo :: rest →
      etherTypeOfNat (hi.val * 256 + lo.val) = none →
      Ethernet.from_bytes h raw =
        ({ h with src := ⟨s0, s1, s2, s3, s4, s5⟩,
                  dst := ⟨d0, d1, d2, d3, d4, d5⟩ },
          Except.error PacketError.domainError)) := by
  constructor
  · intro hlen
    exact Ethernet.from_bytes_short h raw hlen
  · intro s0 s1 s2 s3 s4 s5 d0 d1 d2 d3 d4 d5 hi lo rest hraw hbad
    subst hraw
    exact Ethernet.from_bytes_domain_mutation h
      s0 s1 s2 s3 s4 s5 d0 d1 d2 d3 d4 d5 hi lo rest hbad

/-- Witness for C4 amended, at the default header and the empty
input. -/
theorem C4_mutation_on_failure_witness :
    Ethernet.from_bytes Ethernet.init [] =
      (Ethernet.init, Except.error (.formatError 0)) :=
  (C4_mutation_on_failure Ethernet.init []).1 (by decide)

/-- C5 counterexample: `EtherType.IP` is a recognized terminal of the
dispatch table, and `next_header_class` does return the terminal
sentinel without raising — but it prints a console warning while doing
so, so the lookup is not warning-free as claimed. -/
theorem C5_counterexample :
    Ethernet.init.next_header_class =
      Except.ok (none,
        ["Warning: no class exists to parse next protocol type: EtherType.IP"]) ∧
    (["Warning: no class exists to parse next protocol type: EtherType.IP"] :
        List String) ≠ [] := by
  exact ⟨rfl, by simp⟩

/-- C5 amended: for every header whose ethertype is mapped to the
terminal entry of the dispatch table, `next_header_class` returns the
terminal sentinel without raising, while emitting exactly one console
warning naming the ethertype. -/
theorem C5_terminal_lookup (h : Ethernet)
    (ht : EtherTypeClasses h.ethertype = some none) :
    h.next_header_class =
      Except.ok (none,
        ["Warning: no class exists to parse next protocol type: "
          ++ etherTypeName h.ethertype]) := by
  unfold Ethernet.next_header_class
  rw [ht]

/-- Witness for C5 amended at the default header (ethertype IP). -/
theorem C5_terminal_lookup_witness :
    Ethernet.init.next_header_class =
      Except.ok (none,
        ["Warning: no class exists to parse next protocol type: "
          ++ etherTypeName Ethernet.init.ethertype]) :=
  C5_terminal_lookup Ethernet.init (by decide)

/-- C6: for every header whose ethertype has no entry at all in the
dispatch table, `next_header_class` raises the
unrecognized-protocol error instead of returning a value. -/
theorem C6_unrecognized_lookup (h : Ethernet)
    (ht : EtherTypeClasses h.ethertype = none) :
    h.next_header_class =
      Except.error (.unrecognizedProtocolError h.ethertype) := by
  unfold Ethernet.next_header_class
  rw [ht]

/-- Witness for C6 at a header whose ethertype (IPv6) is absent from
the dispatch table. -/
theorem C6_unrecognized_lookup_witness :
    Ethernet.next_header_class ⟨etherAny, etherAny, .IPv6⟩ =
      Except.error (.unrecognizedProtocolError EtherType.IPv6) :=
  C6_unrecognized_lookup ⟨etherAny, etherAny, .IPv6⟩ (by decide)

/-- C7: assigning a numeric value carried by no `EtherType` member to
the ethertype setter fails with the domain error and leaves the field
(indeed the whole header) unchanged; assigning the value of a member
succeeds and stores that member. -/
theorem C7_ethertype_setter (h : Ethernet) (v : Nat) :
    ((∀ et : EtherType, etherTypeValue et ≠ v) →
      h.set_ethertype v = (h, some PacketError.domainError)) ∧
    (∀ et : EtherType, etherTypeValue et = v →
      h.set_ethertype v = ({ h with ethertype := et }, none)) := by
  constructor
  · intro hv
    unfold Ethernet.set_ethertype
    rw [etherTypeOfNat_eq_none v hv]
  · intro et hv
    subst hv
    unfold Ethernet.set_ethertype
    rw [etherTypeOfNat_value]

/-- Witness for C7: 0x1234 is no member value and is rejected without
touching the header; 0x0806 is the ARP value and is coerced to the
member. -/
theorem C7_ethertype_setter_witness :
    Ethernet.set_ethertype Ethernet.init 0x1234 =
      (Ethernet.init, some PacketError.domainError) ∧
    Ethernet.set_ethertype Ethernet.init 0x0806 =
      ({ Ethernet.init with ethertype := .ARP }, none) :=
  ⟨(C7_ethertype_setter Ethernet.init 0x1234).1 (by decide),
   (C7_ethertype_setter Ethernet.init 0x0806).2 .ARP (by decide)⟩

/-- C8: `to_bytes` always yields exactly 14 bytes — the six `src`
address bytes, then the six `dst` address bytes, then two bytes whose
big-endian reading is the 16-bit ethertype value — and `size()` returns
14. -/
theorem C8_wire_format (h : Ethernet) :
    h.size = 14 ∧
    h.to_bytes.length = 14 ∧
    h.to_bytes.take 6 = h.src.packed ∧
    ((h.to_bytes.drop 6).take 6) = h.dst.packed ∧
    (h.to_bytes.getD 12 0).val * 256 + (h.to_bytes.getD 13 0).val =
      etherTypeValue h.ethertype := by
  obtain ⟨⟨s0, s1, s2, s3, s4, s5⟩, ⟨d0, d1, d2, d3, d4, d5⟩, et⟩ := h
  rw [Ethernet.to_bytes_explicit]
  refine ⟨rfl, rfl, rfl, rfl, ?_⟩
  cases et <;>
    simp only [List.getD, List.get?_cons_succ, List.get?_cons_zero,
      Option.getD_some, etherTypeValue, natToByte]

/-- Modelled from the spec: the ICMP header implementation
(`switchyard/lib/packet/icmp.py`) is not among the sources, only its
tests.  Group a byte sequence into 16-bit big-endian words, a trailing
odd byte padded with zero, as the Internet checksum requires. -/
def bytesToWords16 : List Byte → List Nat
  | [] => []
  | [b] => [b.val * 256]
  | b1 :: b2 :: rest => (b1.val * 256 + b2.val) :: bytesToWords16 rest

/-- Modelled from the spec: one addition step of the one's-complement
sum, folding the carry out of bit 16 back into the low word
(end-around carry). -/
def onesComplementAdd (a b : Nat) : Nat :=
  (a + b) % 65536 + (a + b) / 65536

/-- Modelled from the spec (§4.4, glossary): the Internet checksum of a
byte sequence — one's-complement sum of its 16-bit big-endian words
with end-around carry, complemented. -/
def internetChecksum (bs : List Byte) : Nat :=
  65535 - (bytesToWords16 bs).foldl onesComplementAdd 0

/-- Modelled from the spec: the echo-request subtype payload of the
ICMP-style header — a 16-bit identifier, a 16-bit sequence number and a
variable-length data tail.  Only this subtype is needed: the claim
exercises the default-constructed header, whose discriminant selects
echo request. -/
structure ICMPEchoRequest where
  identifier : Nat
  sequence : Nat
  data : List Byte

/-- Modelled from the spec: the echo-request payload encodes as
identifier and sequence, each 16-bit big-endian, followed by the data
bytes. -/
def ICMPEchoRequest.to_bytes (e : ICMPEchoRequest) : List Byte :=
  natToByte (e.identifier / 256) :: natToByte (e.identifier % 256) ::
    natToByte (e.sequence / 256) :: natToByte (e.sequence % 256) :: e.data

/-- Modelled from the spec: the ICMP-style header — a type byte, a code
byte, a 16-bit big-endian checksum and the active subtype payload. -/
structure ICMP where
  icmptype : Nat
  icmpcode : Nat
  icmpdata : ICMPEchoRequest

/-- Modelled from the spec: `ICMP()` with all defaults is an echo
request — type 8, code 0, identifier 0, sequence 0, empty data. -/
def ICMP.init : ICMP := ⟨8, 0, ⟨0, 0, []⟩⟩

/-- Modelled from the spec (§4.4): encoding emits the 4-byte prefix
(type, code, checksum big-endian) followed by the payload's bytes; the
checksum is the Internet checksum of the full encoding with the
checksum field zeroed, patched into bytes 2 and 3. -/
def ICMP.to_bytes (i : ICMP) : List Byte :=
  let body := i.icmpdata.to_bytes
  let ck := internetChecksum
    (natToByte i.icmptype :: natToByte i.icmpcode ::
      natToByte 0 :: natToByte 0 :: body)
  natToByte i.icmptype :: natToByte i.icmpcode ::
    natToByte (ck / 256) :: natToByte (ck % 256) :: body

/-- C9: the default-constructed ICMP-style header (echo request: type 8,
code 0, identifier 0, sequence 0) encodes to exactly the eight bytes
08 00 f7 ff 00 00 00 00, bytes 2-3 being the big-endian Internet
checksum. -/
theorem C9_default_echo :
    ICMP.init.to_bytes = [0x08, 0x00, 0xf7, 0xff, 0x00, 0x00, 0x00, 0x00] := by
  decide

/-- C10: there are full-length (exactly 14-byte) inputs on which
`from_bytes` still raises: whenever the big-endian value of the last
two bytes is carried by no `EtherType` member, decoding fails with the
domain error of the ethertype setter, not with the insufficient-bytes
format error. -/
theorem C10_domain_failure (h : Ethernet)
    (s0 s1 s2 s3 s4 s5 d0 d1 d2 d3 d4 d5 hi lo : Byte)
    (hbad : ∀ et : EtherType, etherTypeValue et ≠ hi.val * 256 + lo.val) :
    (Ethernet.from_bytes h
        [s0, s1, s2, s3, s4, s5, d0, d1, d2, d3, d4, d5, hi, lo]).2 =
      Except.error PacketError.domainError ∧
    ∀ n : Nat,
      (Ethernet.from_bytes h
          [s0, s1, s2, s3, s4, s5, d0, d1, d2, d3, d4, d5, hi, lo]).2 ≠
        Except.error (PacketError.formatError n) := by
  have hm := Ethernet.from_bytes_domain_mutation h
    s0 s1 s2 s3 s4 s5 d0 d1 d2 d3 d4 d5 hi lo []
    (etherTypeOfNat_eq_none _ hbad)
  rw [hm]
  exact ⟨rfl, fun n hn => by cases hn⟩

/-- Witness for C10 at the all-zero 14-byte input, whose last two bytes
encode 0, the value of no `EtherType` member. -/
theorem C10_domain_failure_witness :
    (Ethernet.from_bytes Ethernet.init
        [0, 0, 0, 0, 0, 0, 0, 0, 0, 0, 0, 0, 0, 0]).2 =
      Except.error PacketError.domainError ∧
    ∀ n : Nat,
      (Ethernet.from_bytes Ethernet.init
          [0, 0, 0, 0, 0, 0, 0, 0, 0, 0, 0, 0, 0, 0]).2 ≠
        Except.error (PacketError.formatError n) :=
  C10_domain_failure Ethernet.init 0 0 0 0 0 0 0 0 0 0 0 0 0 0 (by decide)
